import Mathlib

/-!
Shallow embedding of the grpc-rate-service repository
(KonstantinDolgov/grpc-rate-service): the KuCoin quote client
(internal/exchange/kucoin/kucoin.go), the PostgreSQL rate store
(internal/repository/db/repository.go), the rate service
(internal/service/rate_service.go) and the gRPC handler
(internal/handler/grpc/grpc_handler.go), together with theorems settling
the specification claims about them.

Go conventions are embedded as follows: machine floats that only carry
decimal data through the pipeline are modelled as exact rationals;
`time.Time` values are modelled by their epoch offset in milliseconds
plus an explicit civil-calendar conversion mirroring `time.Time.UTC`;
Go `error` values are an inductive type with `fmt.Errorf("...%w")`
wrapping and `errors.Is` unwrapping; fallible calls return `Except`,
and a runtime panic (index out of range) is a distinguished outcome.
-/

/-- Model of a Go `error` value: the distinguished `sql.ErrNoRows`
sentinel, any other base error identified by its message, and a wrapped
error as produced by `fmt.Errorf("msg: %w", err)`. -/
inductive GoErr where
  | sqlErrNoRows : GoErr
  | base : String → GoErr
  | wrap : String → GoErr → GoErr
deriving DecidableEq, Repr

/-- Model of Go `errors.Is err target`: the target matches the error
itself or anything reachable by unwrapping `fmt.Errorf("...%w")` chains. -/
def errorsIs : GoErr → GoErr → Bool
  | .wrap m inner, t => decide (GoErr.wrap m inner = t) || errorsIs inner t
  | e, t => decide (e = t)

/-- Outcome of running a piece of Go code: a runtime panic (for the
out-of-range index access), or a normal return. A normal return carries
the returned value; returned `error` values live inside the value type. -/
inductive GoOutcome (α : Type) where
  | panic : String → GoOutcome α
  | ok : α → GoOutcome α
deriving DecidableEq, Repr

/-- True exactly on the ASCII digits, as `strconv` classifies them. -/
def isDigitChar (c : Char) : Bool := decide ('0' ≤ c) && decide (c ≤ '9')

/-- Numeric value of a digit string (most significant digit first). -/
def natOfDigits (cs : List Char) : Nat :=
  cs.foldl (fun a c => a * 10 + (c.toNat - 48)) 0

/-- Strip an optional leading sign, returning the sign as ±1. -/
def parseSign : List Char → Int × List Char
  | '+' :: rest => (1, rest)
  | '-' :: rest => (-1, rest)
  | cs => (1, cs)

/-- Split a character list at the first character satisfying `p`:
returns the prefix before it and, when found, the remainder after it. -/
def splitAtChar (p : Char → Bool) : List Char → List Char × Option (List Char)
  | [] => ([], none)
  | c :: rest =>
    if p c then ([], some rest)
    else
      let (pre, post) := splitAtChar p rest
      (c :: pre, post)

/-- Model of Go `strconv.ParseFloat s 64` on its decimal forms
`[+|-] digits [. digits] [e|E [+|-] digits]` (with at least one mantissa
digit), returning the exact rational value; inputs outside this grammar
(including the `Inf`, `NaN` and hexadecimal forms, which never carry
order-book prices) are rejected. The rational is exact where the Go
float64 is rounded; every price in the claims is exactly representable. -/
def parseFloat (s : String) : Option ℚ :=
  let (sign, cs) := parseSign s.toList
  let (mant, expPart) := splitAtChar (fun c => c == 'e' || c == 'E') cs
  let (ipart, fpartOpt) := splitAtChar (fun c => c == '.') mant
  let fpart := fpartOpt.getD []
  if ipart.all isDigitChar && fpart.all isDigitChar &&
      (!ipart.isEmpty || !fpart.isEmpty) then
    let mval : ℚ :=
      (sign : ℚ) * ((natOfDigits ipart * 10 ^ fpart.length + natOfDigits fpart : ℕ) : ℚ) /
        ((10 : ℚ) ^ fpart.length)
    match expPart with
    | none => some mval
    | some ecs =>
      let (esign, eds) := parseSign ecs
      if !eds.isEmpty && eds.all isDigitChar then
        some (mval * (10 : ℚ) ^ (esign * (natOfDigits eds : ℤ)))
      else none
  else none

/-- A civil UTC instant with millisecond precision, the observable
content of a Go `time.Time` in location UTC. -/
structure DateTime where
  year : Int
  month : Int
  day : Int
  hour : Int
  minute : Int
  second : Int
  millis : Int
deriving DecidableEq, Repr

/-- Proleptic-Gregorian date of a day count relative to 1970-01-01,
the calendar Go `time` uses (civil-from-days; truncating division is
safe because every intermediate quantity is kept nonnegative). -/
def civilFromDays (z0 : Int) : Int × Int × Int :=
  let z := z0 + 719468
  let era : Int := (if 0 ≤ z then z else z - 146096) / 146097
  let doe : Int := z - era * 146097
  let yoe : Int := (doe - doe / 1460 + doe / 36524 - doe / 146096) / 365
  let y : Int := yoe + era * 400
  let doy : Int := doe - (365 * yoe + yoe / 4 - yoe / 100)
  let mp : Int := (5 * doy + 2) / 153
  let d : Int := doy - (153 * mp + 2) / 5 + 1
  let m : Int := if mp < 10 then mp + 3 else mp - 9
  (if m ≤ 2 then y + 1 else y, m, d)

/-- Model of `time.Unix(0, ms*int64(time.Millisecond)).UTC()`: the civil
UTC instant of an epoch offset given in milliseconds. -/
def utcOfMillis (ms : Int) : DateTime :=
  let s := ms.fdiv 1000
  let msRem := ms - 1000 * s
  let days := s.fdiv 86400
  let sod := s - 86400 * days
  let ymd := civilFromDays days
  ⟨ymd.1, ymd.2.1, ymd.2.2, sod / 3600, sod % 3600 / 60, sod % 60, msRem⟩

/-- Concrete evaluation of the price parser used by several claims:
the decimal string "40001.0" parses to the rational 40001. -/
lemma parseFloat_ask : parseFloat "40001.0" = some 40001 := by
  have h : "40001.0".toList = ['4', '0', '0', '0', '1', '.', '0'] := rfl
  simp [parseFloat, h, splitAtChar, parseSign, natOfDigits, isDigitChar]
  norm_num

/-- Concrete evaluation of the price parser: "40000.0" parses to 40000. -/
lemma parseFloat_bid : parseFloat "40000.0" = some 40000 := by
  have h : "40000.0".toList = ['4', '0', '0', '0', '0', '.', '0'] := rfl
  simp [parseFloat, h, splitAtChar, parseSign, natOfDigits, isDigitChar]
  norm_num

/-- Concrete evaluation of the price parser: the test fixture value
"not-a-number" is rejected, as `strconv.ParseFloat` rejects it. -/
lemma parseFloat_bad : parseFloat "not-a-number" = none := by
  have h : "not-a-number".toList =
      ['n', 'o', 't', '-', 'a', '-', 'n', 'u', 'm', 'b', 'e', 'r'] := rfl
  simp [parseFloat, h, splitAtChar, parseSign, natOfDigits, isDigitChar]

/-- The epoch instant 1617267321123 ms used throughout the repository
tests, rendered in UTC (note: 2021-04-01T08:55:21.123Z). -/
lemma utcOfMillis_fixture :
    utcOfMillis 1617267321123 = ⟨2021, 4, 1, 8, 55, 21, 123⟩ := by decide

/-! ## Quote Client (internal/exchange/kucoin/kucoin.go) -/

/-- The `Data` payload of the KuCoin level2_20 order-book envelope, as
declared in `OrderBookResponse` in kucoin.go. -/
structure OrderBookData where
  sequence : String
  time : Int
  bids : List (List String)
  asks : List (List String)
deriving DecidableEq, Repr

/-- The KuCoin order-book envelope `OrderBookResponse` from kucoin.go. -/
structure OrderBookResponse where
  code : String
  data : OrderBookData
deriving DecidableEq, Repr

/-- One upstream HTTP interaction as `GetOrderBook` observes it:
request construction may fail, the transport may fail, or a response
arrives with a status code and a body. The body is recorded as what
`json.Decoder.Decode` would yield if it were run, so that "the body is
never decoded" is provable as independence from this component. -/
inductive HTTPOutcome where
  | reqBuildErr : GoErr → HTTPOutcome
  | transportErr : GoErr → HTTPOutcome
  | response : Nat → Except GoErr OrderBookResponse → HTTPOutcome
deriving Repr

/-- Successful result of `GetOrderBook`: first ask price, first bid
price, and the envelope time in epoch milliseconds (the content of
`time.Unix(0, Time*int64(time.Millisecond)).UTC()`). -/
structure OrderBook where
  ask : ℚ
  bid : ℚ
  timeMillis : Int
deriving DecidableEq, Repr

/-- Model of `KuCoinClient.GetOrderBook` from kucoin.go: each check in
source order — request construction, transport, HTTP status, JSON
decode, outer emptiness of the ask/bid lists, ask price parse, bid
price parse — and the unguarded `Asks[0][0]` / `Bids[0][0]` accesses,
which panic when the first inner list is empty. The returned `error`
values mirror the `fmt.Errorf` wrapping of the source. -/
def getOrderBook (baseURL symbol : String) (upstream : HTTPOutcome) :
    GoOutcome (Except GoErr OrderBook) :=
  let _url := baseURL ++ "/api/v1/market/orderbook/level2_20?symbol=" ++ symbol
  match upstream with
  | .reqBuildErr e => .ok (.error (.wrap "failed to create request" e))
  | .transportErr e => .ok (.error (.wrap "failed to make request" e))
  | .response status body =>
    if status ≠ 200 then
      .ok (.error (.base ("unexpected status code: " ++ toString status)))
    else
      match body with
      | .error e => .ok (.error (.wrap "failed to decode response" e))
      | .ok response =>
        if response.data.asks.length = 0 ∨ response.data.bids.length = 0 then
          .ok (.error (.base "empty order book data"))
        else
          match (response.data.asks.headD []).head? with
          | none => .panic "runtime error: index out of range [0] with length 0"
          | some askStr =>
            match parseFloat askStr with
            | none =>
              .ok (.error (.wrap "failed to parse ask price"
                (.base ("strconv.ParseFloat: parsing " ++ askStr))))
            | some askPrice =>
              match (response.data.bids.headD []).head? with
              | none => .panic "runtime error: index out of range [0] with length 0"
              | some bidStr =>
                match parseFloat bidStr with
                | none =>
                  .ok (.error (.wrap "failed to parse bid price"
                    (.base ("strconv.ParseFloat: parsing " ++ bidStr))))
                | some bidPrice =>
                  .ok (.ok ⟨askPrice, bidPrice, response.data.time⟩)

/-! ## Rate Store (internal/model/rate.go, repository for PostgreSQL) -/

/-- The persisted `model.Rate` record: symbol, ask, bid, the exchange
quote time (`Timestamp`, epoch ms) and the insertion time. -/
structure Rate where
  id : Int
  symbol : String
  ask : ℚ
  bid : ℚ
  timestamp : Int
  createdAt : Int
deriving DecidableEq, Repr

/-- Semantics of the `GetLatestRate` query
`SELECT ... WHERE symbol = $1 ORDER BY timestamp DESC LIMIT 1` on the
rows restricted to the symbol: the row with the greatest `timestamp`
(SQL leaves the choice among ties unspecified; this model keeps the
earliest-stored maximal row, and every claim proved below is insensitive
to that choice). -/
def pickLatest : List Rate → Option Rate
  | [] => none
  | r :: rest =>
    match pickLatest rest with
    | none => some r
    | some best => if r.timestamp < best.timestamp then some best else some r

/-- The rows of the `rates` table holding a given symbol, in insertion
order (the table is append-only: inserts only, no update or delete). -/
def rowsFor (table : List Rate) (symbol : String) : List Rate :=
  table.filter (fun r => r.symbol = symbol)

/-- Model of `Repository.SaveRate`: when the driver reports an error the
method wraps it as `failed to execute insert query: %w`; otherwise one
row is appended to the table. `conn` is the driver-level outcome of
`ExecContext` (`none` = success). -/
def repoSaveRate (conn : Option GoErr) (table : List Rate) (rate : Rate) :
    Except GoErr (List Rate) :=
  match conn with
  | some e => .error (.wrap "failed to execute insert query" e)
  | none => .ok (table ++ [rate])

/-- Model of `Repository.GetLatestRate`: a driver-level failure of
`QueryRowContext ... Scan` — including the `sql.ErrNoRows` it reports
when the query yields no row — is wrapped as
`failed to get latest rate: %w` and returned; otherwise the selected
row is returned. `conn` is a driver connectivity/query failure
(`none` = the query ran). -/
def repoGetLatestRate (conn : Option GoErr) (table : List Rate) (symbol : String) :
    Except GoErr Rate :=
  match conn with
  | some e => .error (.wrap "failed to get latest rate" e)
  | none =>
    match pickLatest (rowsFor table symbol) with
    | none => .error (.wrap "failed to get latest rate" GoErr.sqlErrNoRows)
    | some r => .ok r

/-! ## Rate Service (internal/service/rate_service.go, current revision) -/

/-- Result of `RateService.GetRates` as observed by its caller plus the
persistence side effect: the returned `(ask, bid, timestamp, error)`
tuple (zero values on error, as the source returns
`0, 0, time.Time{}, err`) and whether `repo.SaveRate` was invoked. -/
structure ServiceGetRatesResult where
  ask : ℚ
  bid : ℚ
  timeMillis : Int
  err : Option GoErr
  saveCalled : Bool
deriving DecidableEq, Repr

/-- Model of `RateService.GetRates`: on a client error the error is
returned unchanged and `SaveRate` is never reached; on client success a
`model.Rate` is built and saved, and — whether or not the save fails —
the freshly fetched values are returned with a nil error. `client` is
the outcome of `kuCoinClient.GetOrderBook` and `saveResult` the error
`repo.SaveRate` would report (`none` = save succeeds); a panic in the
client propagates. -/
def serviceGetRates (client : GoOutcome (Except GoErr OrderBook))
    (saveResult : Option GoErr) : GoOutcome ServiceGetRatesResult :=
  match client with
  | .panic msg => .panic msg
  | .ok (.error e) => .ok ⟨0, 0, 0, some e, false⟩
  | .ok (.ok book) =>
    match saveResult with
    | some _ => .ok ⟨book.ask, book.bid, book.timeMillis, none, true⟩
    | none => .ok ⟨book.ask, book.bid, book.timeMillis, none, true⟩

/-- Result of `RateService.HealthCheck` plus its observable calls: the
boolean verdict and whether `kuCoinClient.GetOrderBook` was invoked. -/
structure HealthCheckResult where
  healthy : Bool
  clientCalled : Bool
deriving DecidableEq, Repr

/-- Model of `RateService.HealthCheck` in the current
internal/service/rate_service.go: it calls `repo.GetLatestRate(ctx,
"BTC-USDT")`, returns false when that errs with anything that is not
`sql.ErrNoRows` under `errors.Is`, and otherwise returns true. The
KuCoin client is available in the environment (`clientOutcome` is what
`GetOrderBook("BTC-USDT")` would return) but the body never consults
it, which the `clientCalled` field records. -/
def serviceHealthCheck (latest : Except GoErr Rate)
    (_clientOutcome : GoOutcome (Except GoErr OrderBook)) : HealthCheckResult :=
  match latest with
  | .error e => if !(errorsIs e GoErr.sqlErrNoRows) then ⟨false, false⟩ else ⟨true, false⟩
  | .ok _ => ⟨true, false⟩

/-! ## RPC Handler (internal/handler/grpc/grpc_handler.go) -/

/-- The gRPC status codes this handler emits. -/
inductive GrpcCode where
  | invalidArgument : GrpcCode
  | internal : GrpcCode
deriving DecidableEq, Repr

/-- A `status.Error(code, msg)` value as seen on the wire. -/
structure GrpcError where
  code : GrpcCode
  msg : String
deriving DecidableEq, Repr

/-- The `GetRatesResponse` protobuf message. -/
structure GetRatesResponse where
  ask : ℚ
  bid : ℚ
  timeMillis : Int
deriving DecidableEq, Repr

/-- The `HealthCheckResponse` protobuf message. -/
structure HealthCheckResponse where
  healthy : Bool
deriving DecidableEq, Repr

/-- What a handler call produces, plus whether the wrapped service was
consulted: exactly one of `resp`/`err` is set, matching the Go
`(resp, nil)` / `(nil, err)` convention. -/
structure HandlerGetRatesOutcome where
  resp : Option GetRatesResponse
  err : Option GrpcError
  serviceCalled : Bool
deriving DecidableEq, Repr

/-- Model of `RateServiceServer.GetRates`: an empty request symbol is
rejected with `InvalidArgument "symbol is required"` before the service
is consulted; otherwise the service result (`service` is what
`rateService.GetRates` would return) is either masked as
`Internal "failed to get rates"` or repackaged into the response. -/
def handlerGetRates (symbol : String)
    (service : ServiceGetRatesResult) : HandlerGetRatesOutcome :=
  if symbol = "" then
    ⟨none, some ⟨.invalidArgument, "symbol is required"⟩, false⟩
  else
    match service.err with
    | some _ => ⟨none, some ⟨.internal, "failed to get rates"⟩, true⟩
    | none => ⟨some ⟨service.ask, service.bid, service.timeMillis⟩, none, true⟩

/-- Model of `RateServiceServer.HealthCheck`: it always returns the
service verdict inside a normal response, with a nil error. -/
def handlerHealthCheck (healthy : Bool) : Option HealthCheckResponse × Option GrpcError :=
  (some ⟨healthy⟩, none)

/-! ## Theorems settling the claims -/

/-- C9: for every request and every internal health state, the RPC
handler HealthCheck returns a non-nil response carrying the service
boolean result and a nil error — it never returns an RPC-level error;
an unhealthy service is delivered as the normal response value
healthy = false. -/
theorem c9_handler_healthcheck_never_fails (healthy : Bool) :
    handlerHealthCheck healthy = (some ⟨healthy⟩, none) := rfl

/-- C3: for every symbol whose quote fetch succeeds, the service
GetRates returns the freshly fetched ask, bid and quote timestamp with
a nil error whatever the SaveRate outcome is — a save failure changes
neither the returned values nor the error result. -/
theorem c3_save_error_swallowed (book : OrderBook)
    (saveResult saveResult2 : Option GoErr) :
    serviceGetRates (.ok (.ok book)) saveResult =
      .ok ⟨book.ask, book.bid, book.timeMillis, none, true⟩ ∧
    serviceGetRates (.ok (.ok book)) saveResult =
      serviceGetRates (.ok (.ok book)) saveResult2 := by
  cases saveResult <;> cases saveResult2 <;> exact ⟨rfl, rfl⟩

/-- C4: a request with an empty symbol is answered with an
InvalidArgument-status error and the rate service is never invoked
(hence no upstream call and no store write can occur); a request with a
non-empty symbol is delegated to the service. -/
theorem c4_empty_symbol_rejected (symbol : String)
    (service : ServiceGetRatesResult) :
    (symbol = "" → handlerGetRates symbol service =
      ⟨none, some ⟨.invalidArgument, "symbol is required"⟩, false⟩) ∧
    (symbol ≠ "" → (handlerGetRates symbol service).serviceCalled = true) := by
  constructor
  · intro h
    simp [handlerGetRates, h]
  · intro h
    simp only [handlerGetRates, if_neg h]
    cases service.err <;> rfl

/-- Witness for C4 at the empty symbol and at "BTC-USDT". -/
theorem c4_empty_symbol_rejected_witness :
    handlerGetRates "" ⟨40001, 40000, 1617267321123, none, true⟩ =
      ⟨none, some ⟨.invalidArgument, "symbol is required"⟩, false⟩ ∧
    (handlerGetRates "BTC-USDT"
      ⟨40001, 40000, 1617267321123, none, true⟩).serviceCalled = true :=
  ⟨(c4_empty_symbol_rejected "" ⟨40001, 40000, 1617267321123, none, true⟩).left rfl,
   (c4_empty_symbol_rejected "BTC-USDT"
      ⟨40001, 40000, 1617267321123, none, true⟩).right (by decide)⟩

/-- C8: any two internal service failures produce the identical external
answer — an Internal-status error with the fixed message
"failed to get rates" — so the wire response reveals nothing about
which underlying failure occurred. -/
theorem c8_internal_error_opaque (symbol : String) (e1 e2 : GoErr)
    (r1 r2 : ServiceGetRatesResult) (h : symbol ≠ "")
    (h1 : r1.err = some e1) (h2 : r2.err = some e2) :
    handlerGetRates symbol r1 = handlerGetRates symbol r2 ∧
    handlerGetRates symbol r1 =
      ⟨none, some ⟨.internal, "failed to get rates"⟩, true⟩ := by
  simp [handlerGetRates, if_neg h, h1, h2]

/-- Witness for C8 at two distinct concrete service errors. -/
theorem c8_internal_error_opaque_witness :
    handlerGetRates "BTC-USDT" ⟨0, 0, 0, some (.base "failed to make request"), false⟩ =
      handlerGetRates "BTC-USDT" ⟨0, 0, 0, some (.base "empty order book data"), false⟩ ∧
    handlerGetRates "BTC-USDT" ⟨0, 0, 0, some (.base "failed to make request"), false⟩ =
      ⟨none, some ⟨.internal, "failed to get rates"⟩, true⟩ :=
  c8_internal_error_opaque "BTC-USDT" (.base "failed to make request")
    (.base "empty order book data")
    ⟨0, 0, 0, some (.base "failed to make request"), false⟩
    ⟨0, 0, 0, some (.base "empty order book data"), false⟩
    (by decide) rfl rfl

/-- The latest-row query returns nothing exactly on the empty row set. -/
lemma pickLatest_eq_none (l : List Rate) : pickLatest l = none ↔ l = [] := by
  cases l with
  | nil => simp [pickLatest]
  | cons a rest =>
    rw [pickLatest]
    cases pickLatest rest with
    | none => simp
    | some best =>
      dsimp only
      constructor
      · intro h
        by_cases hlt : a.timestamp < best.timestamp
        · rw [if_pos hlt] at h; cases h
        · rw [if_neg hlt] at h; cases h
      · intro h; cases h

/-- A row selected by the latest-row query is a row of the list it was
selected from. -/
lemma pickLatest_mem (l : List Rate) (r : Rate) (h : pickLatest l = some r) :
    r ∈ l := by
  induction l with
  | nil => simp [pickLatest] at h
  | cons a rest ih =>
    rw [pickLatest] at h
    cases hrec : pickLatest rest with
    | none =>
      rw [hrec] at h
      dsimp only at h
      simp at h
      simp [h]
    | some best =>
      rw [hrec] at h
      dsimp only at h
      by_cases hlt : a.timestamp < best.timestamp
      · rw [if_pos hlt] at h
        simp at h
        exact List.mem_cons_of_mem a (ih (h ▸ hrec))
      · rw [if_neg hlt] at h
        simp at h
        simp [h]

/-- A row selected by the latest-row query carries the greatest
timestamp of the list it was selected from. -/
lemma pickLatest_max (l : List Rate) (r : Rate) (h : pickLatest l = some r) :
    ∀ r2 ∈ l, r2.timestamp ≤ r.timestamp := by
  induction l generalizing r with
  | nil => simp [pickLatest] at h
  | cons a rest ih =>
    rw [pickLatest] at h
    cases hrec : pickLatest rest with
    | none =>
      rw [hrec] at h
      dsimp only at h
      simp at h
      have hrest : rest = [] := (pickLatest_eq_none rest).mp hrec
      subst hrest
      intro r2 hr2
      simp at hr2
      rw [hr2, h]
    | some best =>
      rw [hrec] at h
      dsimp only at h
      intro r2 hr2
      by_cases hlt : a.timestamp < best.timestamp
      · rw [if_pos hlt] at h
        simp at h
        rcases List.mem_cons.mp hr2 with h2 | h2
        · rw [h2, ← h]
          exact le_of_lt hlt
        · exact ih r (h ▸ hrec) r2 h2
      · rw [if_neg hlt] at h
        simp at h
        rcases List.mem_cons.mp hr2 with h2 | h2
        · rw [h2, h]
        · calc r2.timestamp ≤ best.timestamp := ih best hrec r2 h2
            _ ≤ a.timestamp := le_of_not_lt hlt
            _ = r.timestamp := congrArg Rate.timestamp h

/-- When one row strictly dominates every row of the list, appending it
makes it the selected latest row. -/
lemma pickLatest_append_max (l : List Rate) (q : Rate)
    (hmax : ∀ r ∈ l, r.timestamp < q.timestamp) :
    pickLatest (l ++ [q]) = some q := by
  induction l with
  | nil => rfl
  | cons a rest ih =>
    have hrest : pickLatest (rest ++ [q]) = some q :=
      ih (fun r hr => hmax r (List.mem_cons_of_mem a hr))
    have ha : a.timestamp < q.timestamp := hmax a (List.mem_cons_self a rest)
    show pickLatest ((a :: rest) ++ [q]) = some q
    rw [List.cons_append, pickLatest, hrest]
    dsimp only
    rw [if_pos ha]

/-- C7: after saving a quote whose quote time strictly dominates every
stored row for its symbol, GetLatestRate for that symbol returns exactly
that record; and in general the latest-row query returns a single stored
row of the queried symbol carrying its greatest quote time — never an
aggregate or range. -/
theorem c7_store_roundtrip (table : List Rate) (q : Rate) (symbol : String)
    (hq : q.symbol = symbol)
    (hmax : ∀ r ∈ table, r.symbol = symbol → r.timestamp < q.timestamp) :
    repoGetLatestRate none (table ++ [q]) symbol = .ok q ∧
    (∀ (t : List Rate) (s : String) (r : Rate),
      pickLatest (rowsFor t s) = some r →
      r ∈ t ∧ r.symbol = s ∧ ∀ r2 ∈ t, r2.symbol = s → r2.timestamp ≤ r.timestamp) := by
  constructor
  · have hfilter : rowsFor (table ++ [q]) symbol = rowsFor table symbol ++ [q] := by
      simp [rowsFor, List.filter_append, hq]
    have hpick : pickLatest (rowsFor (table ++ [q]) symbol) = some q := by
      rw [hfilter]
      apply pickLatest_append_max
      intro r hr
      have hr2 := List.mem_filter.mp hr
      exact hmax r hr2.1 (by simpa using hr2.2)
    simp [repoGetLatestRate, hpick]
  · intro t s r hpick
    have hmem := pickLatest_mem _ _ hpick
    have hmf := List.mem_filter.mp hmem
    refine ⟨hmf.1, by simpa using hmf.2, ?_⟩
    intro r2 hr2 hs2
    exact pickLatest_max _ _ hpick r2 (List.mem_filter.mpr ⟨hr2, by simpa using hs2⟩)

/-- Witness for C7: one older row, then the saved quote with the greater
quote time; the read-back returns the saved quote. -/
theorem c7_store_roundtrip_witness :
    repoGetLatestRate none
      ([⟨1, "BTC-USDT", 39000, 38999, 100, 0⟩] ++ [⟨2, "BTC-USDT", 40001, 40000, 200, 0⟩])
      "BTC-USDT" = .ok ⟨2, "BTC-USDT", 40001, 40000, 200, 0⟩ ∧
    (∀ (t : List Rate) (s : String) (r : Rate),
      pickLatest (rowsFor t s) = some r →
      r ∈ t ∧ r.symbol = s ∧ ∀ r2 ∈ t, r2.symbol = s → r2.timestamp ≤ r.timestamp) :=
  c7_store_roundtrip [⟨1, "BTC-USDT", 39000, 38999, 100, 0⟩]
    ⟨2, "BTC-USDT", 40001, 40000, 200, 0⟩ "BTC-USDT" rfl (by decide)

/-- Unwrapping through one `fmt.Errorf("...%w")` layer: `errors.Is`
against `sql.ErrNoRows` looks through the wrapper added by
`GetLatestRate`. -/
lemma errorsIs_wrap_noRows (m : String) (inner : GoErr) :
    errorsIs (GoErr.wrap m inner) GoErr.sqlErrNoRows =
      errorsIs inner GoErr.sqlErrNoRows := by
  simp [errorsIs]

/-- The `sql.ErrNoRows` sentinel matches itself under `errors.Is`. -/
lemma errorsIs_noRows_self :
    errorsIs GoErr.sqlErrNoRows GoErr.sqlErrNoRows = true := rfl

/-- C6: during the health check, a GetLatestRate failure whose cause is
not the no-rows sentinel yields verdict false, while the no-rows signal
— recognised by `errors.Is` through the wrapper GetLatestRate adds —
counts the store as healthy and does not by itself make the result
false. -/
theorem c6_norows_distinguished (e : GoErr) (table : List Rate) (symbol : String)
    (client client2 : GoOutcome (Except GoErr OrderBook))
    (hnot : errorsIs e GoErr.sqlErrNoRows = false)
    (hempty : rowsFor table symbol = []) :
    serviceHealthCheck (repoGetLatestRate (some e) table symbol) client =
      ⟨false, false⟩ ∧
    serviceHealthCheck (repoGetLatestRate none table symbol) client2 =
      ⟨true, false⟩ := by
  constructor
  · simp [repoGetLatestRate, serviceHealthCheck, errorsIs_wrap_noRows, hnot]
  · simp [repoGetLatestRate, hempty, pickLatest, serviceHealthCheck,
      errorsIs_wrap_noRows, errorsIs_noRows_self]

/-- Witness for C6 at a concrete connectivity error and the empty table. -/
theorem c6_norows_distinguished_witness :
    serviceHealthCheck
      (repoGetLatestRate (some (.base "database connection error")) [] "BTC-USDT")
      (.ok (.ok ⟨40001, 40000, 1617267321123⟩)) = ⟨false, false⟩ ∧
    serviceHealthCheck (repoGetLatestRate none [] "BTC-USDT")
      (.ok (.ok ⟨40001, 40000, 1617267321123⟩)) = ⟨true, false⟩ :=
  c6_norows_distinguished (.base "database connection error") [] "BTC-USDT"
    (.ok (.ok ⟨40001, 40000, 1617267321123⟩))
    (.ok (.ok ⟨40001, 40000, 1617267321123⟩)) (by rfl) rfl

/-- C1, evaluated on the current internal/service/rate_service.go at the
failing input: the store probe succeeds while the KuCoin client would
fail, yet HealthCheck returns true and GetOrderBook is never invoked.
The unit tests of the repository (TestHealthCheck_KuCoinError expects a
false verdict on a client error, TestHealthCheck_AllOk expects the
client to be consulted) and the earlier revision of the service specify
the two-step probe the claim describes; the current code dropped the
upstream probe. -/
theorem c1_healthcheck_skips_client :
    serviceHealthCheck (.ok ⟨1, "BTC-USDT", 40001, 40000, 1617267321123, 0⟩)
      (.ok (.error (.base "kucoin api error"))) = ⟨true, false⟩ := rfl

/-- C2 counterexample: on the specified scenario envelope the client
returns ask 40001, bid 40000 and epoch time 1617267321123 ms — but
that instant renders in UTC as 2021-04-01T08:55:21.123, not the claimed
2021-03-31T17:35:21.123. -/
theorem c2_counterexample_timestamp :
    getOrderBook "https://api.kucoin.com" "BTC-USDT" (.response 200 (.ok
      ⟨"200000", ⟨"1234567890", 1617267321123,
        [["40000.0", "1.0", "1"]], [["40001.0", "0.8", "1"]]⟩⟩)) =
      .ok (.ok ⟨40001, 40000, 1617267321123⟩) ∧
    utcOfMillis 1617267321123 ≠ ⟨2021, 3, 31, 17, 35, 21, 123⟩ := by
  refine ⟨?_, by decide⟩
  simp [getOrderBook, parseFloat_ask, parseFloat_bid]

/-- C2 (amended): for every symbol and every 200-status response whose
decoded envelope has a first ask entry and a first bid entry with
parsable prices, GetOrderBook returns those two prices and the envelope
millisecond epoch time; on the scenario envelope with
time = 1617267321123, asks = [["40001.0","0.8","1"]] and
bids = [["40000.0","1.0","1"]] it returns ask 40001, bid 40000 and the
UTC instant 2021-04-01T08:55:21.123. -/
theorem c2_success_first_entries (baseURL symbol : String)
    (resp : OrderBookResponse) (pa pb : String) (a0 b0 : List String)
    (arest brest : List (List String)) (qa qb : ℚ)
    (_hs : symbol ≠ "")
    (hasks : resp.data.asks = (pa :: a0) :: arest)
    (hbids : resp.data.bids = (pb :: b0) :: brest)
    (hpa : parseFloat pa = some qa) (hpb : parseFloat pb = some qb) :
    getOrderBook baseURL symbol (.response 200 (.ok resp)) =
      .ok (.ok ⟨qa, qb, resp.data.time⟩) ∧
    getOrderBook "https://api.kucoin.com" "BTC-USDT" (.response 200 (.ok
      ⟨"200000", ⟨"1234567890", 1617267321123,
        [["40000.0", "1.0", "1"]], [["40001.0", "0.8", "1"]]⟩⟩)) =
      .ok (.ok ⟨40001, 40000, 1617267321123⟩) ∧
    utcOfMillis 1617267321123 = ⟨2021, 4, 1, 8, 55, 21, 123⟩ := by
  refine ⟨?_, ?_, by decide⟩
  · simp [getOrderBook, hasks, hbids, hpa, hpb]
  · simp [getOrderBook, parseFloat_ask, parseFloat_bid]

/-- Witness for C2 at the scenario envelope itself. -/
theorem c2_success_first_entries_witness :
    getOrderBook "https://api.kucoin.com" "BTC-USDT" (.response 200 (.ok
      ⟨"200000", ⟨"1234567890", 1617267321123,
        [["40000.0", "1.0", "1"]], [["40001.0", "0.8", "1"]]⟩⟩)) =
      .ok (.ok ⟨40001, 40000, 1617267321123⟩) ∧
    utcOfMillis 1617267321123 = ⟨2021, 4, 1, 8, 55, 21, 123⟩ :=
  (c2_success_first_entries "https://api.kucoin.com" "BTC-USDT"
    ⟨"200000", ⟨"1234567890", 1617267321123,
      [["40000.0", "1.0", "1"]], [["40001.0", "0.8", "1"]]⟩⟩
    "40001.0" "40000.0" ["0.8", "1"] ["1.0", "1"] [] [] 40001 40000
    (by decide) rfl rfl parseFloat_ask parseFloat_bid).2

/-- C10: GetOrderBook is not total over syntactically valid bodies —
on a 200 response whose asks list is non-empty but whose first ask
entry is the empty array, the `Asks[0][0]` access indexes out of range
and the call panics instead of returning an error, because the
emptiness guard checks only the outer lists. -/
theorem c10_empty_first_entry_panics :
    getOrderBook "https://api.kucoin.com" "BTC-USDT" (.response 200 (.ok
      ⟨"200000", ⟨"1234567890", 1617267321123,
        [["40000.0", "1.0", "1"]], [[]]⟩⟩)) =
      .panic "runtime error: index out of range [0] with length 0" := by
  simp [getOrderBook]

/-- C5: GetOrderBook surfaces exactly the first failing check in source
order — request construction, transport, non-200 status (with the body
never decoded: the result is independent of it), JSON decode, empty
outer ask/bid list, ask price parse, bid price parse — each mode
producing its own error; and whenever GetOrderBook returns an error the
service GetRates returns that same error and never calls SaveRate. -/
theorem c5_first_error_surfaces (baseURL symbol : String) (e : GoErr)
    (save : Option GoErr) :
    (getOrderBook baseURL symbol (.reqBuildErr e) =
      .ok (.error (.wrap "failed to create request" e))) ∧
    (getOrderBook baseURL symbol (.transportErr e) =
      .ok (.error (.wrap "failed to make request" e))) ∧
    (∀ (status : Nat) (body body2 : Except GoErr OrderBookResponse),
      status ≠ 200 →
      getOrderBook baseURL symbol (.response status body) =
        .ok (.error (.base ("unexpected status code: " ++ toString status))) ∧
      getOrderBook baseURL symbol (.response status body) =
        getOrderBook baseURL symbol (.response status body2)) ∧
    (getOrderBook baseURL symbol (.response 200 (.error e)) =
      .ok (.error (.wrap "failed to decode response" e))) ∧
    (∀ (resp : OrderBookResponse),
      resp.data.asks = [] ∨ resp.data.bids = [] →
      getOrderBook baseURL symbol (.response 200 (.ok resp)) =
        .ok (.error (.base "empty order book data"))) ∧
    (∀ (resp : OrderBookResponse) (pa : String) (a0 bfirst : List String)
      (arest brest : List (List String)),
      resp.data.asks = (pa :: a0) :: arest →
      resp.data.bids = bfirst :: brest →
      parseFloat pa = none →
      getOrderBook baseURL symbol (.response 200 (.ok resp)) =
        .ok (.error (.wrap "failed to parse ask price"
          (.base ("strconv.ParseFloat: parsing " ++ pa))))) ∧
    (∀ (resp : OrderBookResponse) (pa pb : String) (a0 b0 : List String)
      (arest brest : List (List String)) (qa : ℚ),
      resp.data.asks = (pa :: a0) :: arest →
      resp.data.bids = (pb :: b0) :: brest →
      parseFloat pa = some qa →
      parseFloat pb = none →
      getOrderBook baseURL symbol (.response 200 (.ok resp)) =
        .ok (.error (.wrap "failed to parse bid price"
          (.base ("strconv.ParseFloat: parsing " ++ pb))))) ∧
    (∀ (upstream : HTTPOutcome) (e2 : GoErr),
      getOrderBook baseURL symbol upstream = .ok (.error e2) →
      serviceGetRates (getOrderBook baseURL symbol upstream) save =
        .ok ⟨0, 0, 0, some e2, false⟩) := by
  refine ⟨rfl, rfl, ?_, rfl, ?_, ?_, ?_, ?_⟩
  · intro status body body2 h
    exact ⟨by simp [getOrderBook, h], by simp [getOrderBook, h]⟩
  · intro resp hemp
    rcases hemp with h | h <;> simp [getOrderBook, h]
  · intro resp pa a0 bfirst arest brest hasks hbids hpa
    simp [getOrderBook, hasks, hbids, hpa]
  · intro resp pa pb a0 b0 arest brest qa hasks hbids hpa hpb
    simp [getOrderBook, hasks, hbids, hpa, hpb]
  · intro upstream e2 h
    rw [h]
    rfl

/-- Witness for C5: each failure mode exercised on a concrete input. -/
theorem c5_first_error_surfaces_witness :
    (getOrderBook "https://api.kucoin.com" "BTC-USDT"
        (.reqBuildErr (.base "connection refused")) =
      .ok (.error (.wrap "failed to create request" (.base "connection refused")))) ∧
    (getOrderBook "https://api.kucoin.com" "BTC-USDT"
        (.transportErr (.base "connection refused")) =
      .ok (.error (.wrap "failed to make request" (.base "connection refused")))) ∧
    (getOrderBook "https://api.kucoin.com" "BTC-USDT"
        (.response 500 (.error (.base "unread body"))) =
      .ok (.error (.base ("unexpected status code: " ++ toString 500)))) ∧
    (getOrderBook "https://api.kucoin.com" "BTC-USDT"
        (.response 500 (.error (.base "unread body"))) =
      getOrderBook "https://api.kucoin.com" "BTC-USDT"
        (.response 500 (.ok ⟨"200000", ⟨"1", 0, [], []⟩⟩))) ∧
    (getOrderBook "https://api.kucoin.com" "BTC-USDT"
        (.response 200 (.error (.base "connection refused"))) =
      .ok (.error (.wrap "failed to decode response" (.base "connection refused")))) ∧
    (getOrderBook "https://api.kucoin.com" "BTC-USDT"
        (.response 200 (.ok ⟨"200000", ⟨"1", 1617267321123, [], []⟩⟩)) =
      .ok (.error (.base "empty order book data"))) ∧
    (getOrderBook "https://api.kucoin.com" "BTC-USDT"
        (.response 200 (.ok ⟨"200000", ⟨"1", 1617267321123,
          [["40000.0", "1.0", "1"]], [["not-a-number", "0.8", "1"]]⟩⟩)) =
      .ok (.error (.wrap "failed to parse ask price"
        (.base ("strconv.ParseFloat: parsing " ++ "not-a-number"))))) ∧
    (getOrderBook "https://api.kucoin.com" "BTC-USDT"
        (.response 200 (.ok ⟨"200000", ⟨"1", 1617267321123,
          [["not-a-number", "1.0", "1"]], [["40001.0", "0.8", "1"]]⟩⟩)) =
      .ok (.error (.wrap "failed to parse bid price"
        (.base ("strconv.ParseFloat: parsing " ++ "not-a-number"))))) ∧
    (serviceGetRates (getOrderBook "https://api.kucoin.com" "BTC-USDT"
        (.transportErr (.base "connection refused"))) none =
      .ok ⟨0, 0, 0,
        some (.wrap "failed to make request" (.base "connection refused")), false⟩) := by
  have h := c5_first_error_surfaces "https://api.kucoin.com" "BTC-USDT"
    (.base "connection refused") none
  have h500 := h.2.2.1 500 (.error (.base "unread body"))
    (.ok ⟨"200000", ⟨"1", 0, [], []⟩⟩) (by decide)
  refine ⟨h.1, h.2.1, h500.1, h500.2,
    c5_first_error_surfaces "https://api.kucoin.com" "BTC-USDT"
      (.base "connection refused") none |>.2.2.2.1,
    h.2.2.2.2.1 ⟨"200000", ⟨"1", 1617267321123, [], []⟩⟩ (Or.inl rfl),
    h.2.2.2.2.2.1 ⟨"200000", ⟨"1", 1617267321123,
        [["40000.0", "1.0", "1"]], [["not-a-number", "0.8", "1"]]⟩⟩
      "not-a-number" ["0.8", "1"] ["40000.0", "1.0", "1"] [] []
      rfl rfl parseFloat_bad,
    h.2.2.2.2.2.2.1 ⟨"200000", ⟨"1", 1617267321123,
        [["not-a-number", "1.0", "1"]], [["40001.0", "0.8", "1"]]⟩⟩
      "40001.0" "not-a-number" ["0.8", "1"] ["1.0", "1"] [] [] 40001
      rfl rfl parseFloat_ask parseFloat_bad,
    h.2.2.2.2.2.2.2 (.transportErr (.base "connection refused"))
      (.wrap "failed to make request" (.base "connection refused")) h.2.1⟩
